import Mathlib

/-!
Verification development for the focusDB pipeline driver
(`py16db/run_all.py`).  The Python source is shallowly embedded:

* status ("checkpoint") files become lists of marker lines, and the
  filesystem becomes a partial map from paths to such line lists;
* external commands become boolean success flags supplied as inputs;
* floats become rationals; Python exceptions become `Except` values.

Each definition is translated from the corresponding Python function,
whose name it keeps where Lean allows.  Line numbers in comments refer
to `py16db/run_all.py`.
-/

/-! ### Run Ledger (`write_pass_fail`, lines 819-827)

`write_pass_fail(args, stage, status, note)` appends one tab-separated
line `org \t status \t stage \t note` to the SUMMARY file.  The `org`
column is the constant `args.organism_name` for the whole run, so we
record only the three varying columns. -/

structure LedgerEntry where
  status : String
  stage : String
  note : String
  deriving DecidableEq, Repr

/-! ### Checkpoint store (`parse_status_file` / `update_status_file`, lines 297-323)

A status file is modelled as `Option (List String)`: `none` is an
absent file, `some lines` a file whose (stripped) lines are `lines`. -/

/-- `parse_status_file` (lines 297-307): a missing file yields `[]`,
otherwise the stripped lines are returned in order. -/
def parse_status_file (file : Option (List String)) : List String :=
  match file with
  | none => []
  | some lines => lines

/-- `update_status_file` (lines 310-323): re-read the statuses, append
the optional `message`, then write out `set(statuses)` keeping only the
entries not listed in `to_remove`.  Python's `set` iteration order is
unspecified; we determinise it as `List.dedup` (first occurrences),
which is adequate because the file is only ever consumed as a set. -/
def update_status_file (file : Option (List String)) (to_remove : List String)
    (message : Option String) : List String :=
  ((parse_status_file file ++ message.toList).dedup).filter
    (fun s => ! to_remove.contains s)

/-- Set-level semantics of one `update_status_file` call: the persisted
marker set becomes (previous set, plus the message if any) minus the
removed markers.  The C9 theorem proves that the line-level embedding
`update_status_file` refines this. -/
def updateStatusSet (S : Finset String) (to_remove : List String)
    (message : Option String) : Finset String :=
  (S ∪ message.toList.toFinset) \ to_remove.toFinset

theorem mem_update_status_file {a : String} {file : Option (List String)}
    {to_remove : List String} {message : Option String} :
    a ∈ update_status_file file to_remove message ↔
      (a ∈ parse_status_file file ∨ a ∈ message.toList) ∧ a ∉ to_remove := by
  simp [update_status_file, List.mem_filter, List.mem_dedup]

theorem mem_updateStatusSet {a : String} {S : Finset String}
    {to_remove : List String} {message : Option String} :
    a ∈ updateStatusSet S to_remove message ↔
      (a ∈ S ∨ a ∈ message.toList) ∧ a ∉ to_remove := by
  simp [updateStatusSet, Finset.mem_sdiff, Finset.mem_union]

/-- Claim C9: the checkpoint store treats an absent backing file as the
empty marker set, and after `update_status_file` the persisted marker
set equals (previous set, plus message when given) minus `to_remove`,
with no duplicate lines. -/
theorem c9_checkpoint_store_semantics :
    parse_status_file none = [] ∧
    ∀ (file : Option (List String)) (to_remove : List String)
      (message : Option String),
      (update_status_file file to_remove message).toFinset =
        updateStatusSet (parse_status_file file).toFinset to_remove message ∧
      (update_status_file file to_remove message).Nodup := by
  refine ⟨rfl, fun file to_remove message => ⟨?_, ?_⟩⟩
  · ext a
    simp [List.mem_toFinset, mem_update_status_file, mem_updateStatusSet]
  · exact (List.nodup_dedup _).filter _

/-! ### Status-file transition system (C7)

Every mutation of an item's status file in `run_all.py` goes through
`update_status_file`.  The call sites are:

* line 1027 (`maxdist` changed) and line 1035 (`subassembler` changed):
  remove `RIBOSEED COMPLETE`;
* lines 1032-1033 (`maxcov` changed) and lines 658-659 (trim rerun):
  remove `DOWNSAMPLED` and `RIBOSEED COMPLETE`;
* line 636: add `TAXONOMY`;
* line 667: add `TRIMMED` (unconditionally, after `run_sickle`);
* line 678: remove `RIBOSEED COMPLETE` (downsample rerun);
* line 691: add `DOWNSAMPLED`;
* lines 702, 718, 1172, 1182: remove or add `RIBOSEED COMPLETE`.

The `DOWNSAMPLED` mark at line 691 can only execute after the `TRIMMED`
mark at line 667 in the same `process_strain` call, with only line 678
(which removes `RIBOSEED COMPLETE`) in between; we model that program
order as the composite `downPhase`.  All other call sites are modelled
as free events (dropping their guards only adds reachable states). -/

/-- Lines 656-667 of `process_strain`: if `TRIMMED` is absent, remove
`DOWNSAMPLED` and `RIBOSEED COMPLETE`; then (after trimming) add
`TRIMMED`. -/
def trimPhase (S : Finset String) : Finset String :=
  updateStatusSet
    (if "TRIMMED" ∈ S then S
     else updateStatusSet S ["DOWNSAMPLED", "RIBOSEED COMPLETE"] none)
    [] (some "TRIMMED")

/-- Lines 656-691 of `process_strain` reaching the `DOWNSAMPLED` mark:
the trim phase, then (if `DOWNSAMPLED` is absent) removal of
`RIBOSEED COMPLETE`, then the `DOWNSAMPLED` mark. -/
def downPhase (S : Finset String) : Finset String :=
  updateStatusSet
    (if "DOWNSAMPLED" ∈ trimPhase S then trimPhase S
     else updateStatusSet (trimPhase S) ["RIBOSEED COMPLETE"] none)
    [] (some "DOWNSAMPLED")

/-- Lines 1025-1030 of `main`: when `maxdist` is among the changed
parameters, remove `RIBOSEED COMPLETE` from the item's status file (the
`best_reference` file is also deleted, forcing the reference-selection
stage to rerun). -/
def maxdistInvalidate (S : Finset String) : Finset String :=
  updateStatusSet S ["RIBOSEED COMPLETE"] none

/-- Reachable persisted states of one item's status file: the initial
absent file (empty set) followed by any sequence of the
`update_status_file` call sites listed above. -/
inductive ReachStatus : Finset String → Prop where
  | init : ReachStatus ∅
  | removeRibo {S} : ReachStatus S →
      ReachStatus (updateStatusSet S ["RIBOSEED COMPLETE"] none)
  | removeDownRibo {S} : ReachStatus S →
      ReachStatus (updateStatusSet S ["DOWNSAMPLED", "RIBOSEED COMPLETE"] none)
  | addTax {S} : ReachStatus S →
      ReachStatus (updateStatusSet S [] (some "TAXONOMY"))
  | addTrim {S} : ReachStatus S →
      ReachStatus (updateStatusSet S [] (some "TRIMMED"))
  | downSeq {S} : ReachStatus S → ReachStatus (downPhase S)
  | addRibo {S} : ReachStatus S →
      ReachStatus (updateStatusSet S [] (some "RIBOSEED COMPLETE"))

theorem trimmed_mem_trimPhase (S : Finset String) : "TRIMMED" ∈ trimPhase S := by
  simp [trimPhase, mem_updateStatusSet]

theorem trimmed_mem_downPhase (S : Finset String) : "TRIMMED" ∈ downPhase S := by
  rw [downPhase, mem_updateStatusSet]
  refine ⟨Or.inl ?_, by decide⟩
  split
  · exact trimmed_mem_trimPhase S
  · rw [mem_updateStatusSet]
    exact ⟨Or.inl (trimmed_mem_trimPhase S), by decide⟩

/-- The state reached by taxonomy, trimming, downsampling and assembly
completing, and then a `maxdist` parameter change being applied. -/
def postMaxdistState : Finset String :=
  maxdistInvalidate
    (updateStatusSet (downPhase (updateStatusSet ∅ [] (some "TAXONOMY")))
      [] (some "RIBOSEED COMPLETE"))

/-- Claim C7 counterexample: after a `maxdist` change invalidates the
reference-selection stage, the status file still holds the markers
`TAXONOMY`, `TRIMMED` and `DOWNSAMPLED` of the strictly later stages,
so the claimed downstream-absence fails at this reachable state. -/
theorem c7_counterexample :
    ReachStatus postMaxdistState ∧
    "DOWNSAMPLED" ∈ postMaxdistState ∧
    "TRIMMED" ∈ postMaxdistState ∧
    "TAXONOMY" ∈ postMaxdistState := by
  refine ⟨?_, by decide, by decide, by decide⟩
  exact ReachStatus.removeRibo
    (ReachStatus.addRibo (ReachStatus.downSeq (ReachStatus.addTax ReachStatus.init)))

/-- Claim C7 (amended): along the trim/downsample chain the cascade does
hold: in every reachable status-file state, `DOWNSAMPLED` present
implies `TRIMMED` present.  (A `maxdist` change, by contrast, removes
only `RIBOSEED COMPLETE`; see the counterexample.) -/
theorem c7_downsampled_implies_trimmed :
    ∀ S : Finset String, ReachStatus S →
      "DOWNSAMPLED" ∈ S → "TRIMMED" ∈ S := by
  intro S h
  induction h with
  | init => simp
  | removeRibo h ih =>
      rw [mem_updateStatusSet, mem_updateStatusSet]
      rintro ⟨hD | hD, -⟩
      · exact ⟨Or.inl (ih hD), by decide⟩
      · simp at hD
  | removeDownRibo h ih =>
      rw [mem_updateStatusSet]
      rintro ⟨-, hrm⟩
      exact absurd (by decide) hrm
  | addTax h ih =>
      rw [mem_updateStatusSet, mem_updateStatusSet]
      rintro ⟨hD | hD, -⟩
      · exact ⟨Or.inl (ih hD), by decide⟩
      · simp at hD
  | addTrim h ih =>
      intro _
      rw [mem_updateStatusSet]
      exact ⟨Or.inr (by decide), by decide⟩
  | downSeq h ih =>
      intro _
      exact trimmed_mem_downPhase _
  | addRibo h ih =>
      rw [mem_updateStatusSet, mem_updateStatusSet]
      rintro ⟨hD | hD, -⟩
      · exact ⟨Or.inl (ih hD), by decide⟩
      · simp at hD

/-- Claim C7 witness: the amended cascade theorem applied at a concrete
reachable state containing `DOWNSAMPLED`. -/
theorem c7_downsampled_implies_trimmed_witness :
    "TRIMMED" ∈ downPhase (∅ : Finset String) :=
  c7_downsampled_implies_trimmed (downPhase ∅)
    (ReachStatus.downSeq ReachStatus.init) (by decide)

/-! ### Average read length (`get_and_check_ave_read_len_from_fastq`, lines 404-432)

The Python function sums the lengths of at most the first 30 reads of
the fastq file, then divides the total by the constant 30 (not by the
number of reads actually seen) and compares the result to the
`minlen`/`maxlen` bounds (65 and 301 at the call site, line 1075).
We model the fastq file by the list of its read lengths. -/

def get_and_check_ave_read_len_from_fastq (read_lens : List Nat)
    (minlen maxlen : ℚ) : Nat × ℚ :=
  let tot : Nat := (read_lens.take 30).sum
  let ave_read_len : ℚ := (tot : ℚ) / 30
  if ave_read_len < minlen then (1, ave_read_len)
  else if maxlen < ave_read_len then (2, ave_read_len)
  else (0, ave_read_len)

/-- Claim C10: for a fastq file with fewer than 30 reads the reported
average read length is the sum of the present read lengths divided by
the constant 30; in particular a file with a single 100-base read
yields 100/30 and is rejected (status 1) as below the 65bp minimum. -/
theorem c10_short_file_average_underestimates
    (read_lens : List Nat) (minlen maxlen : ℚ)
    (h : read_lens.length < 30) :
    (get_and_check_ave_read_len_from_fastq read_lens minlen maxlen).2 =
      (read_lens.sum : ℚ) / 30 ∧
    get_and_check_ave_read_len_from_fastq [100] 65 301 = (1, 100 / 30) := by
  constructor
  · have htake : read_lens.take 30 = read_lens :=
      List.take_of_length_le (Nat.le_of_lt h)
    rw [get_and_check_ave_read_len_from_fastq, htake]
    split <;> first | rfl | split <;> rfl
  · rw [get_and_check_ave_read_len_from_fastq]
    have htake : ([100] : List Nat).take 30 = [100] :=
      List.take_of_length_le (by norm_num)
    rw [htake]
    norm_num

/-- Claim C10 witness: the theorem instantiated at the single-read file. -/
theorem c10_short_file_average_underestimates_witness :
    ([100] : List Nat).length < 30 ∧
    (get_and_check_ave_read_len_from_fastq [100] 65 301).2 =
      (([100] : List Nat).sum : ℚ) / 30 :=
  ⟨by decide, (c10_short_file_average_underestimates [100] 65 301 (by decide)).1⟩

/-! ### Coverage (`get_coverage`, lines 435-452)

The Python function counts the lines of `fastq1` with
`for count, line in enumerate(data): pass`, so `count` ends up as the
number of lines minus one (the index of the last line; the function
assumes at least one line).  It then doubles `read_length` when a
second fastq is supplied and returns
`(count * read_length) / (approx_length * 4)`. -/

def get_coverage (n_lines : Nat) (read_length approx_length : ℚ)
    (paired : Bool) : ℚ :=
  let count : Nat := n_lines - 1
  let rl : ℚ := if paired then read_length * 2 else read_length
  ((count : ℚ) * rl) / (approx_length * 4)

/-- Stated from the claim's words, for comparison with `get_coverage`:
coverage = (read_count × effective_read_length) / genome_length, where
the effective read length doubles for paired reads and a fastq file
holds 4 lines per read. -/
def specCoverage (read_count : Nat) (read_length approx_length : ℚ)
    (paired : Bool) : ℚ :=
  let rl : ℚ := if paired then read_length * 2 else read_length
  ((read_count : ℚ) * rl) / approx_length

/-- Claim C5: on the claim's own example (100,000 single-end reads of
length 100, i.e. a 400,000-line fastq, genome length 5,000,000) the
code returns 1.999995, not the claimed 2.0, because `enumerate` yields
the line count minus one; the paired case gives 3.99999, not 4.0. -/
theorem c5_coverage_off_by_one_line :
    get_coverage 400000 100 5000000 false = 399999 / 200000 ∧
    specCoverage 100000 100 5000000 false = 2 ∧
    get_coverage 400000 100 5000000 true = 399999 / 100000 ∧
    specCoverage 100000 100 5000000 true = 4 ∧
    (399999 / 200000 : ℚ) ≠ 2 ∧
    (399999 / 100000 : ℚ) ≠ 4 := by
  refine ⟨?_, ?_, ?_, ?_, ?_, ?_⟩ <;> norm_num [get_coverage, specCoverage]

/-! ### String helpers

`String.replace` and `String.startsWith` from core do not reduce inside
the kernel, so we re-implement the two Python string operations used by
`extract_16s_from_assembly` as structurally recursive functions on the
character list of the string.  `pyReplace` mirrors Python's
`str.replace`: scan left to right, replacing non-overlapping
occurrences (all patterns used in `run_all.py` are non-empty). -/

def listStartsWith : List Char → List Char → Bool
  | _, [] => true
  | [], _ :: _ => false
  | c :: cs, p :: ps => c == p && listStartsWith cs ps

def strStartsWith (s pat : String) : Bool :=
  listStartsWith s.toList pat.toList

def pyReplaceFuel (pat rep : List Char) : Nat → List Char → List Char
  | 0, s => s
  | _ + 1, [] => []
  | fuel + 1, c :: rest =>
      if listStartsWith (c :: rest) pat then
        rep ++ pyReplaceFuel pat rep fuel (List.drop (pat.length - 1) rest)
      else
        c :: pyReplaceFuel pat rep fuel rest

def pyReplace (s pat rep : String) : String :=
  if pat.toList.isEmpty then s
  else ⟨pyReplaceFuel pat.toList rep.toList s.toList.length s.toList⟩

/-! ### Taxonomy (`parse_kraken_report`, lines 560-587)

`parse_kraken_report` keeps, for each rank code R/D/P/C/O/F/G/S, the
highest-percentage call as a triple (percentage, taxon id, label),
defaulting to `[0, "-", ""]`. -/

structure TaxEntry where
  score : ℚ
  taxid : String
  label : String
  deriving DecidableEq, Repr

def taxEntryEmpty : TaxEntry := ⟨0, "-", ""⟩

structure TaxDict where
  R : TaxEntry
  D : TaxEntry
  P : TaxEntry
  C : TaxEntry
  O : TaxEntry
  F : TaxEntry
  G : TaxEntry
  S : TaxEntry
  deriving DecidableEq, Repr

/-- Lines 745-756 of `extract_16s_from_assembly`: the fallback label.
Start from the species label; when (spaces removed) it is empty, switch
to the genus label with `"sp."` appended; when that string - spaces
removed, then occurrences of the substring `".sp"` removed - is empty,
fall back to family, then order, then class, then phylum.  Note the
code strips the substring `".sp"`, not the appended suffix `"sp."`. -/
def fallbackTaxString (tax_d : TaxDict) : String :=
  let t0 := tax_d.S.label
  if (pyReplace t0 " " "").length = 0 then
    let t1 := tax_d.G.label ++ "sp."
    if (pyReplace (pyReplace t1 " " "") ".sp" "").length = 0 then
      let t2 := tax_d.F.label
      if (pyReplace t2 " " "").length = 0 then
        let t3 := tax_d.O.label
        if (pyReplace t3 " " "").length = 0 then
          let t4 := tax_d.C.label
          if (pyReplace t4 " " "").length = 0 then
            tax_d.P.label
          else t4
        else t3
      else t2
    else t1
  else t0

/-- Taxonomy with an empty species label and genus `Escherichia`. -/
def taxGenusOnly : TaxDict :=
  { R := taxEntryEmpty, D := taxEntryEmpty, P := taxEntryEmpty,
    C := taxEntryEmpty, O := taxEntryEmpty, F := taxEntryEmpty,
    G := ⟨85, "561", "Escherichia"⟩, S := taxEntryEmpty }

/-- Taxonomy with empty species and genus labels and family
`Enterobacteriaceae`. -/
def taxFamilyOnly : TaxDict :=
  { R := taxEntryEmpty, D := taxEntryEmpty, P := taxEntryEmpty,
    C := taxEntryEmpty, O := taxEntryEmpty,
    F := ⟨80, "543", "Enterobacteriaceae"⟩,
    G := taxEntryEmpty, S := taxEntryEmpty }

/-- Claim C4: with empty species and genus `Escherichia` the fallback
label is `Escherichiasp.` as claimed, but with species and genus both
empty and family `Enterobacteriaceae` the code yields `sp.` - not the
claimed `Enterobacteriaceae` - because the emptiness test removes the
substring `".sp"` (which never occurs in `"sp."`) instead of the
appended suffix `"sp."`, so the walk never proceeds past genus. -/
theorem c4_fallback_never_reaches_family :
    fallbackTaxString taxGenusOnly = "Escherichiasp." ∧
    fallbackTaxString taxFamilyOnly = "sp." ∧
    ("sp." : String) ≠ "Enterobacteriaceae" := by
  refine ⟨?_, ?_, by decide⟩ <;> decide

/-! ### End of `main` (lines 1217-1229)

After aggregation, `main` writes the global Run Ledger entry and exits:
`sys.exit()` is called with no argument on both the zero-sequence FAIL
path (line 1227) and the PASS path (line 1229), and a bare `sys.exit()`
terminates the process with exit status 0. -/

def mainFinalize (n_extracted_seqs : Nat) : LedgerEntry × Nat :=
  if n_extracted_seqs = 0 then
    (⟨"FAIL", "global", "No 16s sequences detected in re-assemblies"⟩, 0)
  else
    (⟨"PASS", "global", ""⟩, 0)

/-- Claim C3 counterexample: with zero extracted sequences the global
ledger entry is FAIL as claimed, but the process exit status is 0
(success), not the claimed non-zero failure status. -/
theorem c3_counterexample :
    (mainFinalize 0).1 =
      ⟨"FAIL", "global", "No 16s sequences detected in re-assemblies"⟩ ∧
    (mainFinalize 0).2 = 0 := by
  exact ⟨rfl, rfl⟩

/-- Claim C3 (amended): the global ledger entry is FAIL exactly when
zero sequences were extracted and PASS otherwise, but the process exits
with status 0 in both cases. -/
theorem c3_global_entry_and_exit_status :
    ∀ n : Nat,
      ((mainFinalize n).1.status = "FAIL" ↔ n = 0) ∧
      ((mainFinalize n).1.status = "PASS" ↔ n ≠ 0) ∧
      (mainFinalize n).1.stage = "global" ∧
      (mainFinalize n).2 = 0 := by
  intro n
  by_cases h : n = 0
  · subst h
    exact ⟨by decide, by decide, rfl, rfl⟩
  · rw [mainFinalize, if_neg h]
    exact ⟨⟨fun hs => absurd hs (by decide), fun h0 => absurd h0 h⟩,
           ⟨fun _ => h, fun _ => rfl⟩, rfl, rfl⟩

/-! ### 16S extraction (`extract_16s_from_assembly`, lines 767-816)

The barrnap GFF report is modelled as a list of 9-field lines (a
malformed line with fewer than 9 fields raises an uncaught IndexError
in the Python code and is outside the modelled domain); the assembly
fasta as a list of (id, sequence) records; sequences as `List Char`.
For each non-comment line whose attribute field starts with
`Name=16S`, each assembly record whose id equals the line's seqid
yields one output record whose sequence is
`rec.seq[start + 1 : end + 1]` (a Python slice of the raw GFF
coordinates), reverse-complemented when the strand field is `-`. -/

structure GffLine where
  seqid : String
  src : String
  ftype : String
  gstart : Nat
  gend : Nat
  score : String
  strand : String
  frame : String
  attr : String
  deriving DecidableEq, Repr

structure AsmRecord where
  id : String
  seq : List Char
  deriving DecidableEq, Repr

structure FastaRec where
  rid : String
  desc : String
  seq : List Char
  deriving DecidableEq, Repr

/-- Python slice `l[a:b]` for non-negative bounds. -/
def pySlice (a b : Nat) (l : List Char) : List Char :=
  (l.drop a).take (b - a)

/-- Base complement as applied by Biopython on the upper-case A/C/G/T
alphabet produced by the assembler (other characters map to
themselves). -/
def complementBase (c : Char) : Char :=
  if c = 'A' then 'T'
  else if c = 'T' then 'A'
  else if c = 'C' then 'G'
  else if c = 'G' then 'C'
  else c

def reverse_complement (l : List Char) : List Char :=
  (l.map complementBase).reverse

/-- Lines 787-815: the inner loop over assembly records for one 16S
GFF line, producing the fasta records written out (`rrn_num` is the
1-based count of 16S lines seen so far). -/
def extractOne (sra : String) (rrn_num : Nat) (tax_string : String)
    (assembly : List AsmRecord) (g : GffLine) : List FastaRec :=
  (assembly.filter (fun r => r.id == g.seqid)).map (fun r =>
    let seq0 := pySlice (g.gstart + 1) (g.gend + 1) r.seq
    let seq1 := if g.strand == "-" then reverse_complement seq0 else seq0
    { rid := sra ++ "_" ++ toString rrn_num ++ "." ++ toString g.gstart
               ++ "." ++ toString g.gend,
      desc := tax_string,
      seq := seq1 })

/-- Lines 769-815: the loop over GFF lines.  Comment lines (seqid
starting `##`) are skipped; lines whose attribute starts `Name=16S`
bump `rrn_num` and emit `extractOne`; other lines are ignored. -/
def extractLoop (sra tax_string : String) (assembly : List AsmRecord) :
    List GffLine → Nat → List FastaRec
  | [], _ => []
  | g :: rest, rrn_num =>
      if strStartsWith g.seqid "##" then
        extractLoop sra tax_string assembly rest rrn_num
      else if strStartsWith g.attr "Name=16S" then
        extractOne sra (rrn_num + 1) tax_string assembly g ++
          extractLoop sra tax_string assembly rest (rrn_num + 1)
      else
        extractLoop sra tax_string assembly rest rrn_num

/-- A one-contig assembly `ACGT` and a barrnap line annotating a 16S
feature with start 1, end 3 on the plus strand. -/
def gffLineEx : GffLine :=
  ⟨"c1", "barrnap", "rRNA", 1, 3, ".", "+", ".", "Name=16S_rRNA"⟩

def asmEx : List AsmRecord := [⟨"c1", "ACGT".toList⟩]

/-- Claim C8 counterexample: for the annotation (start 1, end 3, strand
`+`) on contig `ACGT`, the code extracts `GT` (the Python slice
`seq[2:4]`), while the subsequence at the 0-based half-open interval
[1, 3) taken from the annotation is `CG`; the two differ, so the
claimed coordinate interval is wrong. -/
theorem c8_counterexample :
    (extractLoop "sra" "tax" asmEx [gffLineEx] 0).map (fun rec => rec.seq) =
      ["GT".toList] ∧
    pySlice gffLineEx.gstart gffLineEx.gend (AsmRecord.mk "c1" "ACGT".toList).seq =
      "CG".toList ∧
    ("GT".toList : List Char) ≠ "CG".toList := by
  refine ⟨?_, ?_, by decide⟩ <;> decide

/-- Claim C8 (amended): every record produced by the extraction loop
arises from some 16S-annotated GFF line g and some assembly record r
with matching id, and its sequence is the Python slice
`r.seq[g.start + 1 : g.end + 1]` - the 0-based half-open interval
shifted one past the raw annotation coordinates, not the interval
[start, end) itself - reverse-complemented exactly when g's strand is
`-`. -/
theorem c8_extracted_seq_is_shifted_slice :
    ∀ (sra tax_string : String) (assembly : List AsmRecord)
      (lines : List GffLine) (rrn_num : Nat) (rec : FastaRec),
      rec ∈ extractLoop sra tax_string assembly lines rrn_num →
      ∃ g ∈ lines, ∃ r ∈ assembly, r.id = g.seqid ∧
        strStartsWith g.attr "Name=16S" = true ∧
        rec.seq = (if g.strand == "-" then
                     reverse_complement (pySlice (g.gstart + 1) (g.gend + 1) r.seq)
                   else
                     pySlice (g.gstart + 1) (g.gend + 1) r.seq) := by
  intro sra tax_string assembly lines
  induction lines with
  | nil =>
      intro rrn_num rec h
      rw [extractLoop] at h
      exact absurd h (List.not_mem_nil rec)
  | cons g rest ih =>
      intro rrn_num rec h
      rw [extractLoop] at h
      by_cases h1 : strStartsWith g.seqid "##" = true
      · rw [if_pos h1] at h
        obtain ⟨g', hg', hrest⟩ := ih rrn_num rec h
        exact ⟨g', List.mem_cons_of_mem g hg', hrest⟩
      · rw [if_neg h1] at h
        by_cases h2 : strStartsWith g.attr "Name=16S" = true
        · rw [if_pos h2] at h
          rcases List.mem_append.1 h with hleft | hright
          · rw [extractOne] at hleft
            obtain ⟨r, hr, hrec⟩ := List.mem_map.1 hleft
            obtain ⟨hrassembly, hrid⟩ := List.mem_filter.1 hr
            refine ⟨g, List.mem_cons_self g rest, r, hrassembly,
                    eq_of_beq hrid, h2, ?_⟩
            rw [← hrec]
          · obtain ⟨g', hg', hrest⟩ := ih (rrn_num + 1) rec hright
            exact ⟨g', List.mem_cons_of_mem g hg', hrest⟩
        · rw [if_neg h2] at h
          obtain ⟨g', hg', hrest⟩ := ih rrn_num rec h
          exact ⟨g', List.mem_cons_of_mem g hg', hrest⟩

/-- Claim C8 witness: the amended theorem applied to the concrete
extraction above. -/
theorem c8_extracted_seq_is_shifted_slice_witness :
    ∃ g ∈ [gffLineEx], ∃ r ∈ asmEx, r.id = g.seqid ∧
      strStartsWith g.attr "Name=16S" = true ∧
      (FastaRec.mk "sra_1.1.3" "tax" "GT".toList).seq =
        (if g.strand == "-" then
           reverse_complement (pySlice (g.gstart + 1) (g.gend + 1) r.seq)
         else
           pySlice (g.gstart + 1) (g.gend + 1) r.seq) :=
  c8_extracted_seq_is_shifted_slice "sra" "tax" asmEx [gffLineEx] 0
    (FastaRec.mk "sra_1.1.3" "tax" "GT".toList) (by decide)

/-! ### Assembly jobs and the worker pool (lines 830-853, 1010, 1153-1166)

A `riboSeed_jobs` entry is the Python list
`[accession, cmd, contigs, status_file, tax_dict, return_code]`:
index 4 initially holds the kraken taxonomy dict (or, for jobs skipped
as already complete, the re-parsed report) and index 5 holds the
return-code slot (`None`, or `0` on the skip path at line 1048).  The
worker `run_riboSeed_catch_errors` writes index 4 - the taxonomy slot,
not the final slot.  We model index 4 as a sum of the two value kinds.

The pool (`multiprocessing.Pool`, lines 1153-1165) applies the worker
to every job; outcomes touch disjoint jobs (one accession each), so we
model the pool as a sequential fold, the reading most generous to the
claim - in the real program each worker runs in a separate process, so
its mutations of `riboSeed_jobs` never reach the parent at all. -/

inductive JobFieldFour where
  | tax (t : TaxDict)
  | code (n : Nat)
  deriving DecidableEq, Repr

structure RiboSeedJob where
  acc : String
  cmd : Option String
  contigs : String
  sfile : String
  f4 : JobFieldFour
  f5 : Option Nat
  deriving DecidableEq, Repr

/-- `for j in riboSeed_jobs: if j[0] == acc: j[4] = n`. -/
def markJobOutcome (jobs : List RiboSeedJob) (acc : String) (n : Nat) :
    List RiboSeedJob :=
  jobs.map (fun j => if j.acc == acc then { j with f4 := .code n } else j)

/-- `run_riboSeed_catch_errors` (lines 830-853).  With a null command,
set the matching job's index 4 to 0 and return.  Otherwise run the
command; on a non-zero exit (`CalledProcessError`) set index 4 to 1 and
append a FAIL ledger entry - but then fall through to lines 850-852,
which unconditionally reset index 4 to 0 before returning. -/
def run_riboSeed_catch_errors (cmd : Option String) (acc : String)
    (jobs : List RiboSeedJob) (cmdSucceeds : Bool)
    (ledger : List LedgerEntry) :
    List RiboSeedJob × List LedgerEntry × Nat :=
  match cmd with
  | none => (markJobOutcome jobs acc 0, ledger, 0)
  | some _ =>
      let afterTry :=
        if cmdSucceeds then (jobs, ledger)
        else (markJobOutcome jobs acc 1,
              ledger ++ [⟨"FAIL", acc, "Unknown failure running riboSeed"⟩])
      (markJobOutcome afterTry.1 acc 0, afterTry.2, 0)

/-- The pool: apply the worker to each job in order, threading the
shared job list and the ledger. -/
def runRiboSeedPool (jobs : List RiboSeedJob) (cmdSucceeds : String → Bool) :
    List RiboSeedJob × List LedgerEntry :=
  (jobs.map (fun j => (j.acc, j.cmd))).foldl
    (fun st p =>
      let r := run_riboSeed_catch_errors p.2 p.1 st.1 (cmdSucceeds p.1) st.2
      (r.1, r.2.1))
    (jobs, [])

def taxDictEmpty : TaxDict :=
  { R := taxEntryEmpty, D := taxEntryEmpty, P := taxEntryEmpty,
    C := taxEntryEmpty, O := taxEntryEmpty, F := taxEntryEmpty,
    G := taxEntryEmpty, S := taxEntryEmpty }

/-- Three assembly jobs with non-null commands. -/
def jobsEx : List RiboSeedJob :=
  [⟨"SRR1", some "ribo run 1", "contigs1", "status1", .tax taxDictEmpty, none⟩,
   ⟨"SRR2", some "ribo run 2", "contigs2", "status2", .tax taxDictEmpty, none⟩,
   ⟨"SRR3", some "ribo run 3", "contigs3", "status3", .tax taxDictEmpty, none⟩]

/-- Job 2's external command exits non-zero; jobs 1 and 3 succeed. -/
def cmdSucceedsEx : String → Bool := fun acc => !(acc == "SRR2")

/-- Claim C1: with three jobs of which only job 2's command exits
non-zero, the pool leaves every job's written slot - including job
2's - at 0 (the unconditional reset loop at lines 850-852 overwrites
the 1 written by the except handler), and the single ledger entry the
worker writes for job 2 has status FAIL, not the claimed ERROR; no
ERROR entry exists. -/
theorem c1_failed_job_outcome_reset_to_zero :
    ((runRiboSeedPool jobsEx cmdSucceedsEx).1.map (fun j => j.f4)) =
      [.code 0, .code 0, .code 0] ∧
    (runRiboSeedPool jobsEx cmdSucceedsEx).2 =
      [⟨"FAIL", "SRR2", "Unknown failure running riboSeed"⟩] ∧
    ((runRiboSeedPool jobsEx cmdSucceedsEx).2.countP
      (fun e => e.status == "ERROR")) = 0 := by
  refine ⟨?_, ?_, ?_⟩ <;> decide

/-! ### Post-pool reconciliation (lines 1169-1186, `check_riboSeed_outcome` lines 715-725)

The filesystem is a partial map from paths to line lists.  For each job
`v`, `check_riboSeed_outcome(status_file, v[2])` is called with the
stale `status_file` loop variable (the last accession's status file):
if the contigs path exists it marks `RIBOSEED COMPLETE` there,
otherwise it raises `riboSeedUnsuccessfulError`.  On the no-exception
path, line 1172 marks `RIBOSEED COMPLETE` in the job's own status file
`v[3]` and a PASS entry is written; on the exception path an ERROR
entry is written when `v[4] == 1`, else the job is marked complete in
`v[3]` and a FAIL entry is written. -/

structure FileSys where
  files : String → Option (List String)

def fsExists (fs : FileSys) (path : String) : Bool :=
  (fs.files path).isSome

def fsUpdateStatus (fs : FileSys) (path : String) (to_remove : List String)
    (message : Option String) : FileSys :=
  ⟨fun q => if q = path then
      some (update_status_file (fs.files path) to_remove message)
    else fs.files q⟩

/-- Python's `v[4] == 1`: true only for the integer 1 (a taxonomy dict
never equals 1). -/
def fldEqOne : JobFieldFour → Bool
  | .code n => n == 1
  | .tax _ => false

def reconcileRiboSeedJob (fs : FileSys) (stale_status_file : String)
    (v : RiboSeedJob) (ledger : List LedgerEntry) :
    FileSys × List LedgerEntry :=
  if fsExists fs v.contigs then
    let fs1 := fsUpdateStatus fs stale_status_file [] (some "RIBOSEED COMPLETE")
    let fs2 := fsUpdateStatus fs1 v.sfile [] (some "RIBOSEED COMPLETE")
    (fs2, ledger ++ [⟨"PASS", v.acc, ""⟩])
  else if fldEqOne v.f4 then
    (fs, ledger ++ [⟨"ERROR", v.acc, "riboSeed Error"⟩])
  else
    (fsUpdateStatus fs v.sfile [] (some "RIBOSEED COMPLETE"),
     ledger ++ [⟨"FAIL", v.acc, "riboSeed unsuccessful"⟩])

/-- Claim C2: for every job, if the expected contigs file exists then
`RIBOSEED COMPLETE` is added to the job's own status file and a PASS
entry is recorded for the item; if it does not exist, the recorded
entry is ERROR exactly when the job's index-4 slot equals 1
(tool-execution failure), and FAIL when the slot records success (0)
with the output missing. -/
theorem c2_post_pool_reconciliation :
    ∀ (fs : FileSys) (stale_status_file : String) (v : RiboSeedJob)
      (ledger : List LedgerEntry),
      (fsExists fs v.contigs = true →
        "RIBOSEED COMPLETE" ∈ parse_status_file
          ((reconcileRiboSeedJob fs stale_status_file v ledger).1.files v.sfile) ∧
        (reconcileRiboSeedJob fs stale_status_file v ledger).2 =
          ledger ++ [⟨"PASS", v.acc, ""⟩]) ∧
      (fsExists fs v.contigs = false →
        (((reconcileRiboSeedJob fs stale_status_file v ledger).2.getLast? =
            some ⟨"ERROR", v.acc, "riboSeed Error"⟩) ↔ fldEqOne v.f4 = true) ∧
        (v.f4 = .code 0 →
          (reconcileRiboSeedJob fs stale_status_file v ledger).2 =
            ledger ++ [⟨"FAIL", v.acc, "riboSeed unsuccessful"⟩])) := by
  intro fs stale_status_file v ledger
  constructor
  · intro hex
    rw [reconcileRiboSeedJob, if_pos hex]
    refine ⟨?_, rfl⟩
    simp [fsUpdateStatus, parse_status_file, mem_update_status_file]
  · intro hex
    rw [reconcileRiboSeedJob, if_neg (by simp [hex])]
    by_cases h1 : fldEqOne v.f4 = true
    · rw [if_pos h1]
      refine ⟨⟨fun _ => h1, fun _ => List.getLast?_concat _⟩, fun h0 => ?_⟩
      rw [h0] at h1
      exact absurd h1 (by decide)
    · rw [if_neg h1]
      refine ⟨⟨fun he => ?_, fun hc => absurd hc h1⟩, fun _ => rfl⟩
      rw [List.getLast?_concat] at he
      have hstat : ("FAIL" : String) = "ERROR" :=
        congrArg LedgerEntry.status (Option.some.inj he)
      exact absurd hstat (by decide)

/-- A filesystem in which job A's contigs file exists. -/
def fsEx : FileSys :=
  ⟨fun p => if p = "contigsA" then some [] else none⟩

def jobA : RiboSeedJob :=
  ⟨"A", some "ribo run A", "contigsA", "statusA", .code 0, none⟩

/-- Claim C2 witness: the reconciliation theorem applied to a concrete
job whose contigs file exists. -/
theorem c2_post_pool_reconciliation_witness :
    "RIBOSEED COMPLETE" ∈ parse_status_file
      ((reconcileRiboSeedJob fsEx "stale" jobA []).1.files jobA.sfile) ∧
    (reconcileRiboSeedJob fsEx "stale" jobA []).2 = [⟨"PASS", "A", ""⟩] :=
  (c2_post_pool_reconciliation fsEx "stale" jobA []).1 (by decide)

/-! ### Parameter fingerprint (`different_args`, lines 864-888; `write_this_config`, lines 856-861)

The config file holds one `key:value` line per tracked parameter.
`different_args` raises `ValueError` when the file is missing, when a
line does not split into exactly two fields on `:`, or when the parsed
dict is empty; it raises an (uncaught) `KeyError` when a recognized key
is absent from the parsed dict.  Otherwise it returns, in order, the
recognized keys whose current value - coerced to a string by Python's
`str()`, which we model by passing the already-coerced values as a
`String`-valued map - differs from the stored string.  Python's
`str.split(":")` splits on every colon; we re-implement it structurally
so that it evaluates in the kernel. -/

inductive ConfigErr where
  | valueErr (msg : String)
  | keyErr (key : String)
  deriving DecidableEq, Repr

def args_to_write : List String := ["maxdist", "subassembler", "maxcov"]

def pySplitAux (sep : Char) : List Char → List Char → List String
  | [], acc => [⟨acc.reverse⟩]
  | c :: rest, acc =>
      if c == sep then ⟨acc.reverse⟩ :: pySplitAux sep rest []
      else pySplitAux sep rest (c :: acc)

def pySplitOnChar (sep : Char) (s : String) : List String :=
  pySplitAux sep s.toList []

/-- Lines 874-877: `(key, val) = line.strip().split(":")` for each line
(lines are modelled already stripped); a line with other than exactly
one colon fails the tuple unpacking with `ValueError`.  Later duplicate
keys overwrite earlier ones, which `dictLookup` models by looking the
key up from the rear. -/
def parseConfigLines : List String → Except ConfigErr (List (String × String))
  | [] => .ok []
  | line :: rest =>
      match pySplitOnChar ':' line with
      | [k, v] =>
          match parseConfigLines rest with
          | .error e => .error e
          | .ok ps => .ok ((k, v) :: ps)
      | _ => .error (.valueErr "could not unpack line into key and value")

def dictLookup (pairs : List (String × String)) (k : String) : Option String :=
  pairs.reverse.lookup k

/-- Lines 880-887: the loop over the recognized keys, collecting those
whose current (string-coerced) value differs from the stored one;
`old_config_dict[arg]` raises `KeyError` when the key is missing. -/
def checkArgsLoop (cur : String → String) :
    List String → List (String × String) → Except ConfigErr (List String)
  | [], _ => .ok []
  | a :: rest, pairs =>
      match dictLookup pairs a with
      | none => .error (.keyErr a)
      | some v =>
          match checkArgsLoop cur rest pairs with
          | .error e => .error e
          | .ok l => .ok (if cur a ≠ v then a :: l else l)

def different_args (config_file : Option (List String))
    (cur : String → String) : Except ConfigErr (List String) :=
  match config_file with
  | none => .error (.valueErr "No previous config file found")
  | some lines =>
      match parseConfigLines lines with
      | .error e => .error e
      | .ok pairs =>
          if pairs.isEmpty then .error (.valueErr "Old config file empty")
          else checkArgsLoop cur args_to_write pairs

/-- The claim's current configuration, with each value already coerced
to a string as Python's `str()` renders it: `str(0.1) = "0.1"`,
`str(50) = "50"`, and the default subassembler `"spades"`. -/
def curArgsEx : String → String :=
  fun k => if k = "maxdist" then "0.1" else if k = "maxcov" then "50" else "spades"

/-- Claim C6 counterexample: on the claim's own fingerprint, which
stores only `maxdist` and `maxcov`, `different_args` raises `KeyError`
for the recognized key `subassembler` instead of returning exactly
`{maxdist}`. -/
theorem c6_counterexample :
    different_args (some ["maxdist:0.05", "maxcov:50"]) curArgsEx =
      .error (.keyErr "subassembler") ∧
    different_args (some ["maxdist:0.05", "maxcov:50"]) curArgsEx ≠
      .ok ["maxdist"] := by
  refine ⟨rfl, ?_⟩
  intro h
  rw [show different_args (some ["maxdist:0.05", "maxcov:50"]) curArgsEx =
        .error (.keyErr "subassembler") from rfl] at h
  exact Except.noConfusion h

theorem checkArgsLoop_ok (cur : String → String)
    (pairs : List (String × String)) :
    ∀ recognized : List String,
      (∀ a ∈ recognized, (dictLookup pairs a).isSome) →
      checkArgsLoop cur recognized pairs =
        .ok (recognized.filter
          (fun a => !((some (cur a) : Option String) == dictLookup pairs a))) := by
  intro recognized
  induction recognized with
  | nil => intro _; rfl
  | cons a rest ih =>
      intro h
      have ha : (dictLookup pairs a).isSome :=
        h a (List.mem_cons_self a rest)
      obtain ⟨v, hv⟩ := Option.isSome_iff_exists.1 ha
      rw [checkArgsLoop, hv,
          ih (fun b hb => h b (List.mem_cons_of_mem a hb)),
          List.filter_cons, hv]
      by_cases hc : cur a = v
      · simp [hc]
      · simp [hc, Ne.symm hc]

/-- Claim C6 (amended): whenever the persisted fingerprint parses and
contains a value for every recognized key (`maxdist`, `subassembler`,
`maxcov`), `different_args` returns exactly the recognized keys whose
current value, coerced to string, differs from the stored value; a
fingerprint missing a recognized key instead raises `KeyError` (see
the counterexample). -/
theorem c6_different_args_complete_fingerprint :
    ∀ (lines : List String) (pairs : List (String × String))
      (cur : String → String),
      parseConfigLines lines = .ok pairs →
      pairs ≠ [] →
      (∀ a ∈ args_to_write, (dictLookup pairs a).isSome) →
      different_args (some lines) cur =
        .ok (args_to_write.filter
          (fun a => !((some (cur a) : Option String) == dictLookup pairs a))) := by
  intro lines pairs cur hp hne htotal
  have hempty : pairs.isEmpty = false := by
    cases pairs with
    | nil => exact absurd rfl hne
    | cons p ps => rfl
  rw [different_args, hp]
  show (if pairs.isEmpty = true then
          Except.error (ConfigErr.valueErr "Old config file empty")
        else checkArgsLoop cur args_to_write pairs) =
      Except.ok (args_to_write.filter
        (fun a => !((some (cur a) : Option String) == dictLookup pairs a)))
  rw [hempty, if_neg Bool.false_ne_true]
  exact checkArgsLoop_ok cur pairs args_to_write htotal

def configLinesEx : List String :=
  ["maxdist:0.05", "subassembler:spades", "maxcov:50"]

def pairsEx : List (String × String) :=
  [("maxdist", "0.05"), ("subassembler", "spades"), ("maxcov", "50")]

/-- Claim C6 witness: with the fingerprint completed by the
`subassembler` entry that `write_this_config` always writes, the
amended theorem yields exactly `[maxdist]`. -/
theorem c6_different_args_complete_fingerprint_witness :
    parseConfigLines configLinesEx = .ok pairsEx ∧
    different_args (some configLinesEx) curArgsEx = .ok ["maxdist"] := by
  refine ⟨rfl, ?_⟩
  rw [c6_different_args_complete_fingerprint configLinesEx pairsEx curArgsEx
        rfl (by decide) (by decide)]
  rfl
